import Mathlib

/-
  Verification development for the zhihu-mcp repository.

  The repository drives a remote browser to publish "ideas" and "articles"
  on Zhihu.  Its substantive logic lives in
  `src/zhihu_mcp/zhihu_client.py` (the two publish flows, the injected
  JavaScript locator/injector/classifier scripts, and the accessibility
  snapshot parsing) and `src/zhihu_mcp/server.py` (the MCP tool boundary:
  input validation and exception wrapping).

  Shallow embedding conventions:
  * A browser page is a `Page`: its buttons (text + disabled flag), whether
    the idea-form title textarea and the contenteditable editor exist, its
    body text and its URL.
  * Each injected JavaScript function is translated into a pure Lean
    function on `Page` returning the object the script returns, together
    with the list of DOM side effects (clicks, value writes) it performs.
  * A publish flow is a pure function from the request plus an environment
    (the page each step's script observes, the two snapshot texts for the
    article flow, and an optional final readback — `none` models the
    CallToolResult data being lost) to the returned result dictionary and
    the trace of browser actions performed.
  * Python's `re.finditer` over the pattern
    `uid=(\d+_\d+)\s+textbox.*?multiline` is implemented as an executable
    left-to-right non-overlapping matcher; `str.find` and slicing are
    mirrored with the same clamping semantics; `\s` is modelled by
    `Char.isWhitespace`.
-/

namespace ZhihuMcp

/-! ## String utilities (code-point level, mirroring Python/JS semantics) -/

/-- Prefix test on character lists. -/
def isPrefixL : List Char → List Char → Bool
  | [], _ => true
  | _ :: _, [] => false
  | a :: as, b :: bs => a == b && isPrefixL as bs

/-- Substring containment on character lists: JavaScript
`String.prototype.includes` / Python `in`. -/
def containsSub (hay needle : List Char) : Bool :=
  match hay with
  | [] => isPrefixL needle []
  | _ :: t => isPrefixL needle hay || containsSub t needle

/-- Substring containment on strings. -/
def strContains (hay needle : String) : Bool :=
  containsSub hay.data needle.data

/-- JavaScript `String.prototype.trim`: strip leading and trailing
whitespace. -/
def strTrim (s : String) : String :=
  String.mk (((s.data.dropWhile Char.isWhitespace).reverse.dropWhile
    Char.isWhitespace).reverse)

/-- Index of the first occurrence of `needle` in the list, if any. -/
def firstOcc (needle : List Char) : List Char → Option Nat
  | [] => if isPrefixL needle [] then some 0 else none
  | c :: t =>
      if isPrefixL needle (c :: t) then some 0
      else (firstOcc needle t).map (· + 1)

/-- Python `hay.find(needle, start)`: lowest index `≥ start` where `needle`
occurs, `none` for Python's `-1`. -/
def pyFind (hay needle : List Char) (start : Nat) : Option Nat :=
  (firstOcc needle (hay.drop start)).map (· + start)

/-! ## Literal strings appearing in the source -/

/-- Body-text marker that confirms a publish succeeded. -/
def successMarker : String := "发布成功"

/-- Label of the button that opens the idea form. -/
def labelIdeaForm : String := "发想法"

/-- Label of the publish-trigger button. -/
def labelPublish : String := "发布"

/-- URL fragment identifying a published-article permalink. -/
def urlArticleSeg : String := "/p/"

/-- URL fragment identifying an edit view. -/
def urlEditSeg : String := "/edit"

def homeUrl : String := "https://www.zhihu.com/"

def writeUrl : String := "https://zhuanlan.zhihu.com/write"

def msgPublished : String := "Published successfully"

def msgRedirected : String := "Redirected to article page"

def msgUnknown : String := "Publishing status unknown"

def msgUnableVerify : String := "Publishing completed, but unable to verify result"

def msgTitleLocateFailed : String := "Failed to locate title input field"

def msgContentLocateFailed : String := "Failed to locate content input field"

def errIdeaBtnNotFound : String := "Publish idea button not found"

def errTitleInputNotFound : String := "Title input not found"

def errEditorNotFound : String := "Editor not found"

def errPublishBtnNotFound : String := "Publish button not found"

def errPublishBtnDisabled : String := "Publish button is disabled"

def errContentEmpty : String := "Content cannot be empty"

def errTitleEmpty : String := "Title cannot be empty"

def errPublishPrefix : String := "Publishing error: "

/-- Accessibility-snapshot attribute marking the article content textbox. -/
def descMarker : String := "description=\"请输入正文\""

/-! ## Data model -/

/-- A DOM button as seen by the injected scripts. -/
structure Button where
  textContent : String
  disabled : Bool
deriving DecidableEq

/-- The page state one injected script observes. -/
structure Page where
  buttons : List Button
  hasTitleInput : Bool
  hasEditor : Bool
  bodyText : String
  url : String
deriving DecidableEq

/-- Browser side effects performed by the flows. -/
inductive Action where
  | navigated (url : String)
  | clickedButton (label : String)
  | setTitleValue (v : String)
  | insertedText (v : String)
  | tookSnapshot (n : Nat)
  | filledUid (uid : String) (v : String)
deriving DecidableEq

/-- The object an injected script returns: `{success: ..., error: ...}`. -/
structure ScriptResult where
  success : Bool
  error : Option String := none
deriving DecidableEq

/-- The dictionary a publish operation returns.  Keys absent from the
Python dict are `none`. -/
structure PubResult where
  success : Bool
  message : Option String := none
  error : Option String := none
  url : Option String := none
deriving DecidableEq

/-! ## Injected scripts (zhihu_client.py) -/

/-- JavaScript `Array.from(document.querySelectorAll('button')).find(b =>
b.textContent.trim() === label)`: the first button whose trimmed visible
text exactly equals the label. -/
def findButton (label : String) (bs : List Button) : Option Button :=
  bs.find? (fun b => strTrim b.textContent == label)

/-- The `click_js` script of `publish_idea` (zhihu_client.py lines 91-103):
click the exact-label `发想法` button. -/
def clickIdeaFormScript (p : Page) : ScriptResult × List Action :=
  match findButton labelIdeaForm p.buttons with
  | none => ({ success := false, error := some errIdeaBtnNotFound }, [])
  | some _ => ({ success := true }, [Action.clickedButton labelIdeaForm])

/-- The `title_js` script of `publish_idea` (lines 131-147): set the value
of `textarea[name="title"]` and dispatch an input event. -/
def fillTitleScript (title : String) (p : Page) : ScriptResult × List Action :=
  if p.hasTitleInput then
    ({ success := true }, [Action.setTitleValue title])
  else
    ({ success := false, error := some errTitleInputNotFound }, [])

/-- The `content_js` script of `publish_idea` (lines 167-195): focus the
contenteditable editor and insert the text via `execCommand`. -/
def fillContentScript (content : String) (p : Page) : ScriptResult × List Action :=
  if p.hasEditor then
    ({ success := true }, [Action.insertedText content])
  else
    ({ success := false, error := some errEditorNotFound }, [])

/-- The `publish_js` script (lines 221-242 and 447-468): click the
exact-label `发布` button, skipping the click when it is disabled. -/
def clickPublishScript (p : Page) : ScriptResult × List Action :=
  match findButton labelPublish p.buttons with
  | none => ({ success := false, error := some errPublishBtnNotFound }, [])
  | some b =>
      if b.disabled then
        ({ success := false, error := some errPublishBtnDisabled }, [])
      else
        ({ success := true }, [Action.clickedButton labelPublish])

/-- Result of the idea flow's `check_js` script (lines 268-278). -/
structure IdeaCheck where
  success : Bool
  message : String
deriving DecidableEq

/-- The idea flow's `check_js` classifier: success iff the body contains
the success marker. -/
def ideaCheck (body : String) : IdeaCheck :=
  let successMsg := strContains body successMarker
  { success := successMsg
    message := if successMsg then msgPublished else msgUnknown }

/-- Result of the article flow's `check_js` script (lines 494-511). -/
structure ArticleCheck where
  success : Bool
  message : String
  url : String
deriving DecidableEq

/-- The article flow's `check_js` classifier: success iff the body contains
the marker or the URL looks like a published-article permalink that is not
an edit view. -/
def articleCheck (body url : String) : ArticleCheck :=
  let hasSuccessMsg := strContains body successMarker
  let isArticlePage := strContains url urlArticleSeg && !(strContains url urlEditSeg)
  { success := hasSuccessMsg || isArticlePage
    message :=
      if hasSuccessMsg then msgPublished
      else if isArticlePage then msgRedirected
      else msgUnknown
    url := url }

/-! ## The idea flow (ZhihuClient.publish_idea) -/

/-- Environment of one `publish_idea` call: the page each script observes,
and the final readback (`none` models the check result's data being lost
because the page navigated away). -/
structure IdeaEnv where
  page0 : Page
  page1 : Page
  page2 : Page
  page3 : Page
  checkPage : Option Page
deriving DecidableEq

/-- `ZhihuClient.publish_idea` (zhihu_client.py lines 43-303).  Every
intermediate script result is computed and, when it reports an error, only
logged (the source explicitly does not fail on them); the returned value
is decided solely by the final check step. -/
def publish_idea (title content : String) (env : IdeaEnv) : PubResult × List Action :=
  let nav := [Action.navigated homeUrl]
  let a0 := (clickIdeaFormScript env.page0).2
  let a1 := (fillTitleScript title env.page1).2
  let a2 := (fillContentScript content env.page2).2
  let a3 := (clickPublishScript env.page3).2
  let trace := nav ++ a0 ++ a1 ++ a2 ++ a3
  match env.checkPage with
  | none =>
      ({ success := true, message := some msgUnableVerify }, trace)
  | some p =>
      let r := ideaCheck p.bodyText
      ({ success := r.success, message := some r.message }, trace)

/-! ## The snapshot regex `uid=(\d+_\d+)\s+textbox.*?multiline`

Python `re` semantics for this pattern have no real backtracking
ambiguity: `\d+` and `\s+` are maximal runs (the following literal never
matches a digit resp. whitespace), and `.*?` is the shortest run of
non-newline characters before `multiline`. -/

/-- Split off the maximal leading run of decimal digits. -/
def takeDigits : List Char → List Char × List Char
  | [] => ([], [])
  | c :: t =>
      if c.isDigit then
        let (d, r) := takeDigits t
        (c :: d, r)
      else ([], c :: t)

/-- Split off the maximal leading run of whitespace. -/
def takeWs : List Char → List Char × List Char
  | [] => ([], [])
  | c :: t =>
      if c.isWhitespace then
        let (d, r) := takeWs t
        (c :: d, r)
      else ([], c :: t)

/-- Lazy `.*?multiline`: number of characters consumed up to and including
the nearest `multiline`, failing at a newline or the end. -/
def lazyMulti : List Char → Option Nat
  | [] => if isPrefixL ("multiline").data [] then some 9 else none
  | c :: t =>
      if isPrefixL ("multiline").data (c :: t) then some 9
      else if c = '\n' then none
      else (lazyMulti t).map (· + 1)

/-- Try to match the textbox pattern at the head of `l`; on success return
the captured uid group and the total length of the match. -/
def matchAt (l : List Char) : Option (List Char × Nat) :=
  if isPrefixL ("uid=").data l then
    let l1 := l.drop 4
    let (d1, r1) := takeDigits l1
    if d1.isEmpty then none
    else
      match r1 with
      | '_' :: r2 =>
          let (d2, r3) := takeDigits r2
          if d2.isEmpty then none
          else
            let (ws, r4) := takeWs r3
            if ws.isEmpty then none
            else
              if isPrefixL ("textbox").data r4 then
                match lazyMulti (r4.drop 7) with
                | some k =>
                    some (d1 ++ '_' :: d2,
                      4 + d1.length + 1 + d2.length + ws.length + 7 + k)
                | none => none
              else none
      | _ => none
  else none

/-- Left-to-right non-overlapping scan, as `re.finditer`: each element is
`(match.start, group 1)`.  `fuel` bounds the scan; `finditer` supplies
enough fuel to visit every position. -/
def finditerAux (s : List Char) : Nat → Nat → List (Nat × List Char)
  | 0, _ => []
  | fuel + 1, i =>
      match matchAt (s.drop i) with
      | some (uid, len) => (i, uid) :: finditerAux s fuel (i + len)
      | none => finditerAux s fuel (i + 1)

/-- All matches of the textbox pattern in `s`, leftmost first. -/
def finditer (s : List Char) : List (Nat × List Char) :=
  finditerAux s (s.length + 1) 0

/-! ## Article content locator (zhihu_client.py lines 393-428) -/

/-- The element-text slice carved out for the match starting at
`line_start` (lines 398-407): from the match start to the next sibling
marker `"\n  uid="`, or the next `"uid="` occurrence when that comes
first or the sibling marker is absent, or 300 characters. -/
def elementTextOf (s2 : List Char) (line_start : Nat) : List Char :=
  let next_uid_pos := pyFind s2 ("uid=").data (line_start + 10)
  let line_end0 := pyFind s2 ("\n  uid=").data line_start
  let line_end : Nat :=
    match line_end0 with
    | none =>
        match next_uid_pos with
        | some p => p
        | none => line_start + 300
    | some e =>
        match next_uid_pos with
        | some p => if p < e then p else e
        | none => e
  (s2.drop line_start).take (line_end - line_start)

/-- The description-attribute scan over the matches (lines 396-416): the
first match whose element text contains the content-description marker. -/
def findContentUid (s2 : List Char) : List (Nat × List Char) → Option (List Char)
  | [] => none
  | (start, uid) :: rest =>
      if containsSub (elementTextOf s2 start) descMarker.data then some uid
      else findContentUid s2 rest

/-- Content uid resolution: description scan first, then the positional
fallback to the second textbox match (lines 419-421). -/
def articleContentUid (s2 : List Char) : Option (List Char) :=
  let matches2 := finditer s2
  match findContentUid s2 matches2 with
  | some uid => some uid
  | none =>
      match matches2 with
      | _ :: m2 :: _ => some m2.2
      | _ => none

/-! ## The article flow (ZhihuClient.publish_article) -/

/-- Environment of one `publish_article` call: the two snapshot texts, the
page the publish-click script observes, and the final readback. -/
structure ArticleEnv where
  snap1 : String
  snap2 : String
  page3 : Page
  checkPage : Option Page
deriving DecidableEq

/-- `ZhihuClient.publish_article` (zhihu_client.py lines 305-537): take a
snapshot, fill the first textbox with the title, take a fresh snapshot,
fill the located content textbox, click publish, classify. -/
def publish_article (title content : String) (env : ArticleEnv) : PubResult × List Action :=
  let s1 := env.snap1.data
  let matches1 := finditer s1
  let tr1 := [Action.navigated writeUrl, Action.tookSnapshot 1]
  match matches1 with
  | [] => ({ success := false, message := some msgTitleLocateFailed }, tr1)
  | (_, title_uid) :: _ =>
      let tr2 := tr1 ++ [Action.filledUid (String.mk title_uid) title]
      let s2 := env.snap2.data
      let tr3 := tr2 ++ [Action.tookSnapshot 2]
      match articleContentUid s2 with
      | none => ({ success := false, message := some msgContentLocateFailed }, tr3)
      | some content_uid =>
          let tr4 := tr3 ++ [Action.filledUid (String.mk content_uid) content]
          let a3 := (clickPublishScript env.page3).2
          let tr5 := tr4 ++ a3
          match env.checkPage with
          | none =>
              ({ success := true, message := some msgUnableVerify }, tr5)
          | some p =>
              let r := articleCheck p.bodyText p.url
              ({ success := r.success, message := some r.message, url := some r.url }, tr5)

/-! ## The MCP tool boundary (server.py) -/

/-- Outcome of invoking the engine (`ZhihuClient`): a returned result
dictionary, or a raised exception with its message. -/
inductive EngineOutcome where
  | ok (r : PubResult)
  | exn (e : String)
deriving DecidableEq

/-- `server.publish_idea` (server.py lines 33-68).  The second component
records whether the engine was invoked. -/
def server_publish_idea (engine : String → String → EngineOutcome)
    (title content : String) : PubResult × Bool :=
  if content = "" then
    ({ success := false, error := some errContentEmpty }, false)
  else
    match engine title content with
    | EngineOutcome.ok r => (r, true)
    | EngineOutcome.exn e =>
        ({ success := false, error := some (errPublishPrefix ++ e) }, true)

/-- `server.publish_article` (server.py lines 71-113). -/
def server_publish_article (engine : String → String → EngineOutcome)
    (title content : String) : PubResult × Bool :=
  if title = "" then
    ({ success := false, error := some errTitleEmpty }, false)
  else if content = "" then
    ({ success := false, error := some errContentEmpty }, false)
  else
    match engine title content with
    | EngineOutcome.ok r => (r, true)
    | EngineOutcome.exn e =>
        ({ success := false, error := some (errPublishPrefix ++ e) }, true)

/-! ## Script injection via `json.dumps` (zhihu_client.py lines 131-147,
167-195)

`publish_idea` embeds the title and content into its injected scripts with
`json.dumps(value)`: a double-quoted literal in which `"` and `\` are
escaped, control characters use short escapes or `\u00xx`, and (with
Python's default `ensure_ascii=True`) every character outside printable
ASCII becomes `\uxxxx`, astral characters becoming a surrogate pair.  The
scripting context reads that literal back with JavaScript string-literal
semantics (UTF-16 code units, surrogate pairs recombined). -/

/-- Lowercase hexadecimal digit for `n < 16`. -/
def hexDigit (n : Nat) : Char :=
  if n < 10 then Char.ofNat (48 + n) else Char.ofNat (87 + n)

/-- Numeric value of a hexadecimal digit character. -/
def fromHexDigit (c : Char) : Option Nat :=
  if 48 ≤ c.toNat ∧ c.toNat ≤ 57 then some (c.toNat - 48)
  else if 97 ≤ c.toNat ∧ c.toNat ≤ 102 then some (c.toNat - 87)
  else if 65 ≤ c.toNat ∧ c.toNat ≤ 70 then some (c.toNat - 55)
  else none

/-- Four-digit lowercase hexadecimal rendering of `n < 65536`. -/
def toHex4 (n : Nat) : List Char :=
  [hexDigit (n / 4096 % 16), hexDigit (n / 256 % 16),
   hexDigit (n / 16 % 16), hexDigit (n % 16)]

/-- `json.dumps` encoding of one character (ensure_ascii mode): short
escapes for `"`/`\`/backspace/tab/newline/formfeed/carriage-return,
printable ASCII literally, `\uxxxx` otherwise, surrogate pairs beyond the
basic plane. -/
def encodeChar (c : Char) : List Char :=
  let v := c.toNat
  if v = 34 then ['\\', '"']
  else if v = 92 then ['\\', '\\']
  else if v = 8 then ['\\', 'b']
  else if v = 9 then ['\\', 't']
  else if v = 10 then ['\\', 'n']
  else if v = 12 then ['\\', 'f']
  else if v = 13 then ['\\', 'r']
  else if 32 ≤ v ∧ v ≤ 126 then [c]
  else if v < 65536 then '\\' :: 'u' :: toHex4 v
  else
    ('\\' :: 'u' :: toHex4 (55296 + (v - 65536) / 1024)) ++
    ('\\' :: 'u' :: toHex4 (56320 + (v - 65536) % 1024))

/-- `json.dumps` encoding of a character sequence. -/
def encodeBody : List Char → List Char
  | [] => []
  | c :: t => encodeChar c ++ encodeBody t

/-- `json.dumps(s)`: the quoted literal placed into the injected script. -/
def jsonDumps (s : String) : String :=
  String.mk ('"' :: (encodeBody s.data ++ ['"']))

/-- Numeric value of four hexadecimal digit characters. -/
def parse4 (h1 h2 h3 h4 : Char) : Option Nat :=
  match fromHexDigit h1, fromHexDigit h2, fromHexDigit h3, fromHexDigit h4 with
  | some a, some b, some c, some d => some (4096 * a + 256 * b + 16 * c + d)
  | _, _, _, _ => none

/-- Result of reading one token of a string literal: the closing quote
(with the characters after it), some emitted code points and the remaining
characters, or a syntax error. -/
inductive LitStep where
  | close (rest : List Char)
  | emit (ns : List Nat) (rest : List Char)
  | bad
deriving DecidableEq

/-- Read one token of a JavaScript string literal: a plain character, a
short escape, a `\uXXXX` escape (with surrogate-pair lookahead), or the
closing quote. -/
def litStep : List Char → LitStep
  | [] => LitStep.bad
  | c :: t =>
      if c = '"' then LitStep.close t
      else if c ≠ '\\' then LitStep.emit [c.toNat] t
      else
        match t with
        | [] => LitStep.bad
        | e :: t1 =>
            if e = 'b' then LitStep.emit [8] t1
            else if e = 't' then LitStep.emit [9] t1
            else if e = 'n' then LitStep.emit [10] t1
            else if e = 'f' then LitStep.emit [12] t1
            else if e = 'r' then LitStep.emit [13] t1
            else if e = 'u' then
              match t1 with
              | h1 :: h2 :: h3 :: h4 :: t4 =>
                  match parse4 h1 h2 h3 h4 with
                  | none => LitStep.bad
                  | some n =>
                      if 55296 ≤ n ∧ n ≤ 56319 then
                        match t4 with
                        | b2 :: u2 :: g1 :: g2 :: g3 :: g4 :: t2 =>
                            if b2 = '\\' ∧ u2 = 'u' then
                              match parse4 g1 g2 g3 g4 with
                              | none => LitStep.bad
                              | some m =>
                                  if 56320 ≤ m ∧ m ≤ 57343 then
                                    LitStep.emit
                                      [65536 + (n - 55296) * 1024 + (m - 56320)] t2
                                  else LitStep.emit [n, m] t2
                            else LitStep.emit [n] t4
                        | _ => LitStep.emit [n] t4
                      else LitStep.emit [n] t4
              | _ => LitStep.bad
            else LitStep.emit [e.toNat] t1

/-- Iterate `litStep` under a fuel bound.  Every emitted token consumes at
least one character, so `decodeLit` supplies enough fuel for any input. -/
def decodeLitAux : Nat → List Char → Option (List Nat)
  | 0, _ => none
  | fuel + 1, l =>
      match litStep l with
      | LitStep.close rest => if rest.isEmpty then some [] else none
      | LitStep.bad => none
      | LitStep.emit ns rest => (decodeLitAux fuel rest).map (ns ++ ·)

/-- JavaScript string-literal evaluation of the characters after the
opening quote: the sequence of code points up to the closing quote, with
escape sequences decoded and surrogate pairs recombined.  `none` on a
malformed literal or trailing garbage. -/
def decodeLit (l : List Char) : Option (List Nat) :=
  decodeLitAux (l.length + 1) l

/-- The value the scripting context obtains from a quoted string literal,
as a string (code points re-assembled into characters). -/
def jsLiteralValue (lit : String) : Option String :=
  match lit.data with
  | '"' :: rest => (decodeLit rest).map (fun ns => String.mk (ns.map Char.ofNat))
  | _ => none

/-! ## Concrete data used to exercise the definitions -/

/-- Spec phrase used to check the unverified-result message. -/
def phraseUnableVerify : String := "unable to verify"

def btnIdeaForm : Button := { textContent := "发想法", disabled := false }

def btnPublish : Button := { textContent := "发布", disabled := false }

def btnPublishDisabled : Button := { textContent := "发布", disabled := true }

/-- A settings button whose label strictly contains the publish label. -/
def btnSettings : Button := { textContent := "发布设置", disabled := false }

def pageReady : Page :=
  { buttons := [btnIdeaForm, btnPublish], hasTitleInput := true,
    hasEditor := true, bodyText := "", url := "https://www.zhihu.com/" }

def pageMarker : Page :=
  { buttons := [], hasTitleInput := true, hasEditor := true,
    bodyText := "提示:发布成功!", url := "https://www.zhihu.com/" }

def pageNoMarker : Page :=
  { buttons := [], hasTitleInput := true, hasEditor := true,
    bodyText := "加载中", url := "https://zhuanlan.zhihu.com/write" }

def pageNoTitle : Page :=
  { buttons := [btnIdeaForm, btnPublish], hasTitleInput := false,
    hasEditor := true, bodyText := "", url := "https://www.zhihu.com/" }

def pagePublishDisabled : Page :=
  { buttons := [btnPublishDisabled], hasTitleInput := true,
    hasEditor := true, bodyText := "", url := "https://www.zhihu.com/" }

def ideaEnvOk : IdeaEnv :=
  { page0 := pageReady, page1 := pageReady, page2 := pageReady,
    page3 := pageReady, checkPage := some pageMarker }

def ideaEnvLost : IdeaEnv :=
  { page0 := pageReady, page1 := pageReady, page2 := pageReady,
    page3 := pageReady, checkPage := none }

/-- Idea environment whose title-fill step finds no title textarea but
whose final page shows the success marker. -/
def ideaEnvNoTitleField : IdeaEnv :=
  { page0 := pageReady, page1 := pageNoTitle, page2 := pageReady,
    page3 := pageReady, checkPage := some pageMarker }

/-- Idea environment whose publish button is present but disabled and
whose final page lacks the success marker. -/
def ideaEnvDisabled : IdeaEnv :=
  { page0 := pageReady, page1 := pageReady, page2 := pageReady,
    page3 := pagePublishDisabled, checkPage := some pageNoMarker }

/-- A snapshot with exactly one multiline textbox and no content
description. -/
def snapOne : String := "uid=1_2 textbox multiline"

/-- A snapshot with two multiline textboxes and no content description. -/
def snapTwo : String := "uid=2_2 textbox multiline\n  uid=2_3 textbox multiline"

/-- A snapshot without any multiline textbox. -/
def snapNone : String := "banner toolbar link"

def articleEnvOk : ArticleEnv :=
  { snap1 := snapOne, snap2 := snapTwo, page3 := pageReady,
    checkPage := some pageMarker }

def articleEnvLost : ArticleEnv :=
  { snap1 := snapOne, snap2 := snapTwo, page3 := pageReady,
    checkPage := none }

/-- Article environment whose first snapshot has no textbox at all. -/
def articleEnvNoTitle : ArticleEnv :=
  { snap1 := snapNone, snap2 := snapTwo, page3 := pageReady,
    checkPage := some pageMarker }

/-- Article environment whose second snapshot has exactly one textbox and
no content description. -/
def articleEnvOneBox : ArticleEnv :=
  { snap1 := snapOne, snap2 := snapOne, page3 := pageReady,
    checkPage := some pageMarker }

/-- An engine that returns a successful result on every call. -/
def engOk : String → String → EngineOutcome :=
  fun _ _ => EngineOutcome.ok { success := true }

/-- An engine that raises on every call. -/
def engBoom : String → String → EngineOutcome :=
  fun _ _ => EngineOutcome.exn "boom"

/-! ## Round trip of the `json.dumps` injection -/

/-- A character's code point is below the surrogate range or above it and
below the Unicode bound. -/
lemma char_valid_range (c : Char) :
    c.toNat < 55296 ∨ (57343 < c.toNat ∧ c.toNat < 1114112) := by
  have hv := c.valid
  unfold UInt32.isValidChar Nat.isValidChar at hv
  exact hv

lemma fromHex_hexDigit_fin : ∀ k : Fin 16, fromHexDigit (hexDigit k.val) = some k.val := by
  decide

lemma fromHex_hexDigit (k : Nat) (h : k < 16) : fromHexDigit (hexDigit k) = some k :=
  fromHex_hexDigit_fin ⟨k, h⟩

/-- Reading four generated hex digits recovers the encoded value. -/
lemma parse4_hex (n : Nat) (h : n < 65536) :
    parse4 (hexDigit (n / 4096 % 16)) (hexDigit (n / 256 % 16))
      (hexDigit (n / 16 % 16)) (hexDigit (n % 16)) = some n := by
  unfold parse4
  rw [fromHex_hexDigit _ (Nat.mod_lt _ (by norm_num)),
      fromHex_hexDigit _ (Nat.mod_lt _ (by norm_num)),
      fromHex_hexDigit _ (Nat.mod_lt _ (by norm_num)),
      fromHex_hexDigit _ (Nat.mod_lt _ (by norm_num))]
  simp only []
  congr 1
  omega

/-- Reading a surrogate-pair escape sequence. -/
lemma litStep_u_pair (d1 d2 d3 d4 e1 e2 e3 e4 : Char) (rest : List Char) (n m : Nat)
    (hp : parse4 d1 d2 d3 d4 = some n) (hq : parse4 e1 e2 e3 e4 = some m)
    (hn : 55296 ≤ n ∧ n ≤ 56319) (hm : 56320 ≤ m ∧ m ≤ 57343) :
    litStep ('\\' :: 'u' :: d1 :: d2 :: d3 :: d4 :: '\\' :: 'u' :: e1 :: e2 :: e3 :: e4 :: rest)
      = LitStep.emit [65536 + (n - 55296) * 1024 + (m - 56320)] rest := by
  simp [litStep, hp, hq, hn, hm]

/-- Decoding one encoded character emits exactly its code point. -/
lemma litStep_encodeChar (c : Char) (rest : List Char) :
    litStep (encodeChar c ++ rest) = LitStep.emit [c.toNat] rest := by
  have hval := char_valid_range c
  by_cases h34 : c.toNat = 34
  · simp [encodeChar, h34, litStep]
  · by_cases h92 : c.toNat = 92
    · simp [encodeChar, h34, h92, litStep]
    · by_cases h8 : c.toNat = 8
      · simp [encodeChar, h34, h92, h8, litStep]
      · by_cases h9 : c.toNat = 9
        · simp [encodeChar, h34, h92, h8, h9, litStep]
        · by_cases h10 : c.toNat = 10
          · simp [encodeChar, h34, h92, h8, h9, h10, litStep]
          · by_cases h12 : c.toNat = 12
            · simp [encodeChar, h34, h92, h8, h9, h10, h12, litStep]
            · by_cases h13 : c.toNat = 13
              · simp [encodeChar, h34, h92, h8, h9, h10, h12, h13, litStep]
              · by_cases hprint : 32 ≤ c.toNat ∧ c.toNat ≤ 126
                · have hq : c ≠ '"' := by
                    intro h
                    subst h
                    exact h34 rfl
                  have hb : c ≠ '\\' := by
                    intro h
                    subst h
                    exact h92 rfl
                  simp [encodeChar, h34, h92, h8, h9, h10, h12, h13, hprint, litStep, hq, hb]
                · by_cases hbmp : c.toNat < 65536
                  · have hs : ¬(55296 ≤ c.toNat ∧ c.toNat ≤ 56319) := by omega
                    simp only [encodeChar, h34, h92, h8, h9, h10, h12, h13, hprint, hbmp,
                      if_true, if_false, toHex4]
                    simp only [litStep, List.cons_append, List.nil_append]
                    simp only [reduceIte]
                    rw [parse4_hex _ hbmp]
                    simp [hs]
                  · have hhi : 55296 + (c.toNat - 65536) / 1024 < 65536 := by omega
                    have hlo : 56320 + (c.toNat - 65536) % 1024 < 65536 := by omega
                    have hsur1 : 55296 ≤ 55296 + (c.toNat - 65536) / 1024 ∧
                        55296 + (c.toNat - 65536) / 1024 ≤ 56319 := by omega
                    have hsur2 : 56320 ≤ 56320 + (c.toNat - 65536) % 1024 ∧
                        56320 + (c.toNat - 65536) % 1024 ≤ 57343 := by omega
                    simp only [encodeChar, h34, h92, h8, h9, h10, h12, h13, hprint, hbmp,
                      if_true, if_false, reduceIte, toHex4, List.cons_append,
                      List.nil_append, List.append_assoc]
                    rw [litStep_u_pair _ _ _ _ _ _ _ _ _ _ _
                      (parse4_hex _ hhi) (parse4_hex _ hlo) hsur1 hsur2]
                    have hx : 65536 + (55296 + (c.toNat - 65536) / 1024 - 55296) * 1024 +
                        (56320 + (c.toNat - 65536) % 1024 - 56320) = c.toNat := by omega
                    rw [hx]

lemma encodeChar_length_pos (c : Char) : 1 ≤ (encodeChar c).length := by
  simp only [encodeChar]
  split_ifs <;> simp [toHex4]

lemma encodeBody_length (l : List Char) : l.length ≤ (encodeBody l).length := by
  induction l with
  | nil => simp [encodeBody]
  | cons c t ih =>
      have := encodeChar_length_pos c
      simp [encodeBody]
      omega

/-- Decoding an encoded body followed by the closing quote yields exactly
the original code points. -/
lemma decodeLitAux_encodeBody (src : List Char) :
    decodeLitAux (src.length + 1) (encodeBody src ++ ['"']) = some (src.map Char.toNat) := by
  induction src with
  | nil => simp [encodeBody, decodeLitAux, litStep]
  | cons c t ih =>
      have hsplit : encodeBody (c :: t) ++ ['"'] = encodeChar c ++ (encodeBody t ++ ['"']) := by
        simp [encodeBody]
      rw [show (c :: t).length + 1 = t.length + 1 + 1 by simp, hsplit]
      rw [decodeLitAux, litStep_encodeChar c (encodeBody t ++ ['"'])]
      simp [ih]

/-- Extra fuel does not change a successful decode. -/
lemma decodeLitAux_mono (f k : Nat) :
    ∀ l r, decodeLitAux f l = some r → decodeLitAux (f + k) l = some r := by
  induction f with
  | zero =>
      intro l r h
      simp [decodeLitAux] at h
  | succ f ih =>
      intro l r h
      rw [show f + 1 + k = (f + k) + 1 by omega]
      rw [decodeLitAux] at h ⊢
      cases hs : litStep l with
      | close rest =>
          rw [hs] at h
          exact h
      | bad =>
          rw [hs] at h
          simp at h
      | emit ns rest =>
          rw [hs] at h
          simp only [] at h ⊢
          obtain ⟨r0, hr0, hr⟩ := Option.map_eq_some'.mp h
          rw [ih rest r0 hr0]
          simp [hr]

/-- C9: the title and content values are embedded into the injected
scripts through `json.dumps`, a structural JSON serialization; for every
string — including quotes, backslashes, newlines and any other
script-significant characters — the string literal the scripting context
evaluates decodes back to exactly the original value. -/
theorem C9_injection_roundtrip (title : String) :
    jsLiteralValue (jsonDumps title) = some title := by
  obtain ⟨src⟩ := title
  have hle := encodeBody_length src
  have h1 := decodeLitAux_encodeBody src
  unfold jsonDumps jsLiteralValue decodeLit
  simp only []
  rw [show (encodeBody src ++ ['"']).length + 1
      = src.length + 1 + ((encodeBody src).length + 1 - src.length) by
    simp
    omega]
  rw [decodeLitAux_mono _ _ _ _ h1]
  have hcomp : (Char.ofNat ∘ Char.toNat) = id := by
    funext c
    simp [Function.comp, Char.ofNat_toNat]
  simp [List.map_map, hcomp]

/-! ## Flow and boundary theorems -/

/-- The idea-form click script never clicks the publish button. -/
lemma ideaForm_no_publish_click (p : Page) :
    Action.clickedButton labelPublish ∉ (clickIdeaFormScript p).2 := by
  simp only [clickIdeaFormScript]
  split
  · simp
  · simp only [List.mem_singleton]
    intro h
    injection h with h
    exact absurd h (by decide)

/-- The title-fill script performs no click. -/
lemma fillTitle_no_click (t : String) (p : Page) :
    Action.clickedButton labelPublish ∉ (fillTitleScript t p).2 := by
  simp only [fillTitleScript]
  split <;> simp

/-- The content-fill script performs no click. -/
lemma fillContent_no_click (t : String) (p : Page) :
    Action.clickedButton labelPublish ∉ (fillContentScript t p).2 := by
  simp only [fillContentScript]
  split <;> simp

/-- C1: for every page-text/URL pair read back at the verify step, a body
containing the success marker yields `{success: true, message:
"Published successfully"}`; in the article flow, a marker-less body with a
URL containing `/p/` and not `/edit` yields `{success: true, message:
"Redirected to article page"}` with the URL included; otherwise the result
has `success: false` and message `"Publishing status unknown"`, returned
as a value of the flow, not raised. -/
theorem C1_result_classification (t c : String) (p : Page)
    (ienv : IdeaEnv) (aenv : ArticleEnv)
    (hi : ienv.checkPage = some p) (ha : aenv.checkPage = some p)
    (s0 : Nat) (u0 : List Char) (r0 : List (Nat × List Char))
    (hm : finditer aenv.snap1.data = (s0, u0) :: r0)
    (u2 : List Char) (hc : articleContentUid aenv.snap2.data = some u2) :
    (publish_idea t c ienv).1 =
      (if strContains p.bodyText successMarker then
        { success := true, message := some msgPublished }
      else { success := false, message := some msgUnknown }) ∧
    (publish_article t c aenv).1 =
      (if strContains p.bodyText successMarker then
        { success := true, message := some msgPublished, url := some p.url }
      else if strContains p.url urlArticleSeg && !(strContains p.url urlEditSeg) then
        { success := true, message := some msgRedirected, url := some p.url }
      else { success := false, message := some msgUnknown, url := some p.url }) := by
  constructor
  · simp only [publish_idea, hi, ideaCheck]
    cases hsm : strContains p.bodyText successMarker <;> simp [hsm]
  · simp only [publish_article, hm, hc, ha, articleCheck]
    cases hsm : strContains p.bodyText successMarker <;>
      cases hurl : strContains p.url urlArticleSeg && !(strContains p.url urlEditSeg) <;>
        simp [hsm, hurl]

/-- C1 witness: concrete environments whose verify pages exercise the
marker branch of both classifiers. -/
theorem C1_result_classification_witness :
    (ideaEnvOk.checkPage = some pageMarker ∧
     articleEnvOk.checkPage = some pageMarker ∧
     finditer articleEnvOk.snap1.data = [(0, ['1', '_', '2'])] ∧
     articleContentUid articleEnvOk.snap2.data = some ['2', '_', '3']) ∧
    ((publish_idea "t" "c" ideaEnvOk).1 =
      (if strContains pageMarker.bodyText successMarker then
        { success := true, message := some msgPublished }
      else { success := false, message := some msgUnknown }) ∧
    (publish_article "t" "c" articleEnvOk).1 =
      (if strContains pageMarker.bodyText successMarker then
        { success := true, message := some msgPublished, url := some pageMarker.url }
      else if strContains pageMarker.url urlArticleSeg &&
          !(strContains pageMarker.url urlEditSeg) then
        { success := true, message := some msgRedirected, url := some pageMarker.url }
      else { success := false, message := some msgUnknown, url := some pageMarker.url })) :=
  ⟨⟨rfl, rfl, by decide, by decide⟩,
   C1_result_classification "t" "c" pageMarker ideaEnvOk articleEnvOk rfl rfl
     0 ['1', '_', '2'] [] (by decide) ['2', '_', '3'] (by decide)⟩

/-- C2 counterexample: in the idea flow the title-fill script reports the
title field missing, yet the flow does not abort: it still clicks publish
and returns the classifier's verdict, here `success = true`. -/
theorem C2_locate_failure_counterexample :
    (publish_idea "t" "c" ideaEnvNoTitleField).1.success = true ∧
    Action.clickedButton labelPublish ∈ (publish_idea "t" "c" ideaEnvNoTitleField).2 := by
  decide

/-- C2 amended: only the article flow aborts with FAILURE when the title
or content field cannot be located, performing no further steps; in the
idea flow a missing title or content field is logged and ignored — the
returned result depends only on the final check readback. -/
theorem C2_locate_failure_amended (t c : String) (e1 e2 : IdeaEnv) (a1 a2 : ArticleEnv)
    (h12 : e1.checkPage = e2.checkPage)
    (hA : finditer a1.snap1.data = [])
    (s0 : Nat) (u0 : List Char) (r0 : List (Nat × List Char))
    (hB : finditer a2.snap1.data = (s0, u0) :: r0)
    (hB2 : articleContentUid a2.snap2.data = none) :
    (publish_idea t c e1).1 = (publish_idea t c e2).1 ∧
    ((publish_article t c a1).1 =
        { success := false, message := some msgTitleLocateFailed } ∧
     (publish_article t c a1).2 = [Action.navigated writeUrl, Action.tookSnapshot 1]) ∧
    ((publish_article t c a2).1 =
        { success := false, message := some msgContentLocateFailed } ∧
     (publish_article t c a2).2 = [Action.navigated writeUrl, Action.tookSnapshot 1,
        Action.filledUid (String.mk u0) t, Action.tookSnapshot 2]) := by
  refine ⟨?_, ⟨by simp [publish_article, hA], by simp [publish_article, hA]⟩,
    ⟨by simp [publish_article, hB, hB2], by simp [publish_article, hB, hB2]⟩⟩
  cases hcp : e2.checkPage with
  | none => simp [publish_idea, h12, hcp]
  | some p => simp [publish_idea, h12, hcp]

/-- C2 amended witness: idea environments differing in every fill page but
agreeing on the readback, and article environments missing the title
resp. the content textbox. -/
theorem C2_locate_failure_amended_witness :
    (ideaEnvNoTitleField.checkPage = ideaEnvOk.checkPage ∧
     finditer articleEnvNoTitle.snap1.data = [] ∧
     finditer articleEnvOneBox.snap1.data = [(0, ['1', '_', '2'])] ∧
     articleContentUid articleEnvOneBox.snap2.data = none) ∧
    ((publish_idea "t" "c" ideaEnvNoTitleField).1 = (publish_idea "t" "c" ideaEnvOk).1 ∧
    ((publish_article "t" "c" articleEnvNoTitle).1 =
        { success := false, message := some msgTitleLocateFailed } ∧
     (publish_article "t" "c" articleEnvNoTitle).2 =
        [Action.navigated writeUrl, Action.tookSnapshot 1]) ∧
    ((publish_article "t" "c" articleEnvOneBox).1 =
        { success := false, message := some msgContentLocateFailed } ∧
     (publish_article "t" "c" articleEnvOneBox).2 =
        [Action.navigated writeUrl, Action.tookSnapshot 1,
         Action.filledUid (String.mk ['1', '_', '2']) "t", Action.tookSnapshot 2])) :=
  ⟨⟨rfl, by decide, by decide, by decide⟩,
   C2_locate_failure_amended "t" "c" ideaEnvNoTitleField ideaEnvOk
     articleEnvNoTitle articleEnvOneBox rfl
     (by decide) 0 ['1', '_', '2'] [] (by decide) (by decide)⟩

/-- C3: a request with an empty required field — empty content for
`publish_idea`, empty title or empty content for `publish_article` — gets
`success = false` with a descriptive error, and the engine is never
invoked for that call. -/
theorem C3_empty_field_rejection (eng : String → String → EngineOutcome)
    (t u c : String) (hu : u ≠ "") :
    server_publish_idea eng t "" =
      ({ success := false, error := some errContentEmpty }, false) ∧
    server_publish_article eng "" c =
      ({ success := false, error := some errTitleEmpty }, false) ∧
    server_publish_article eng u "" =
      ({ success := false, error := some errContentEmpty }, false) := by
  refine ⟨by simp [server_publish_idea], by simp [server_publish_article], ?_⟩
  simp [server_publish_article, hu]

/-- C3 witness. -/
theorem C3_empty_field_rejection_witness :
    ("u" ≠ "") ∧
    (server_publish_idea engOk "t" "" =
      ({ success := false, error := some errContentEmpty }, false) ∧
    server_publish_article engOk "" "c" =
      ({ success := false, error := some errTitleEmpty }, false) ∧
    server_publish_article engOk "u" "" =
      ({ success := false, error := some errContentEmpty }, false)) :=
  ⟨by decide, C3_empty_field_rejection engOk "t" "u" "c" (by decide)⟩

/-- C4: in both flows, when the verification readback yields no data at
all, the result is `success = true` with a message containing "unable to
verify", not `success = false`. -/
theorem C4_null_readback_optimism (t c : String) (ienv : IdeaEnv) (aenv : ArticleEnv)
    (hi : ienv.checkPage = none) (ha : aenv.checkPage = none)
    (s0 : Nat) (u0 : List Char) (r0 : List (Nat × List Char))
    (hm : finditer aenv.snap1.data = (s0, u0) :: r0)
    (u2 : List Char) (hc : articleContentUid aenv.snap2.data = some u2) :
    (publish_idea t c ienv).1 = { success := true, message := some msgUnableVerify } ∧
    (publish_article t c aenv).1 = { success := true, message := some msgUnableVerify } ∧
    strContains msgUnableVerify phraseUnableVerify = true := by
  refine ⟨by simp [publish_idea, hi], by simp [publish_article, hm, hc, ha], by decide⟩

/-- C4 witness. -/
theorem C4_null_readback_optimism_witness :
    (ideaEnvLost.checkPage = none ∧ articleEnvLost.checkPage = none ∧
     finditer articleEnvLost.snap1.data = [(0, ['1', '_', '2'])] ∧
     articleContentUid articleEnvLost.snap2.data = some ['2', '_', '3']) ∧
    ((publish_idea "t" "c" ideaEnvLost).1 =
      { success := true, message := some msgUnableVerify } ∧
    (publish_article "t" "c" articleEnvLost).1 =
      { success := true, message := some msgUnableVerify } ∧
    strContains msgUnableVerify phraseUnableVerify = true) :=
  ⟨⟨rfl, rfl, by decide, by decide⟩,
   C4_null_readback_optimism "t" "c" ideaEnvLost articleEnvLost rfl rfl
     0 ['1', '_', '2'] [] (by decide) ['2', '_', '3'] (by decide)⟩

/-- C5: the exact-label locator only ever selects a button whose trimmed
visible text equals the target label exactly; a candidate whose label
strictly contains the target label as a substring is never selected, even
when it appears among the candidates. -/
theorem C5_exact_label_match (label : String) (bs : List Button) (b b' : Button)
    (h1 : findButton label bs = some b) (_h2 : b' ∈ bs)
    (_h3 : strContains (strTrim b'.textContent) label = true)
    (h4 : strTrim b'.textContent ≠ label) :
    strTrim b.textContent = label ∧ findButton label bs ≠ some b' := by
  have hb : strTrim b.textContent = label := by
    have hp := List.find?_some h1
    simpa using hp
  refine ⟨hb, fun hcontra => ?_⟩
  have hp := List.find?_some hcontra
  simp at hp
  exact h4 hp

/-- C5 witness: a "发布设置" settings button listed before the exact
"发布" button is passed over. -/
theorem C5_exact_label_match_witness :
    (findButton labelPublish [btnSettings, btnPublish] = some btnPublish ∧
     btnSettings ∈ [btnSettings, btnPublish] ∧
     strContains (strTrim btnSettings.textContent) labelPublish = true ∧
     strTrim btnSettings.textContent ≠ labelPublish) ∧
    (strTrim btnPublish.textContent = labelPublish ∧
     findButton labelPublish [btnSettings, btnPublish] ≠ some btnSettings) :=
  ⟨⟨by decide, by decide, by decide, by decide⟩,
   C5_exact_label_match labelPublish [btnSettings, btnPublish] btnPublish btnSettings
     (by decide) (by decide) (by decide) (by decide)⟩

/-- C6: in the article flow, the title fill uses the uid extracted from
snapshot 1 and happens before snapshot 2 is taken, and the content fill
uses the uid resolved from snapshot 2; the action trace shows no action
using an identifier from snapshot N after snapshot N+1. -/
theorem C6_snapshot_freshness (t c : String) (aenv : ArticleEnv)
    (s0 : Nat) (u0 : List Char) (r0 : List (Nat × List Char))
    (hm : finditer aenv.snap1.data = (s0, u0) :: r0)
    (u2 : List Char) (hc : articleContentUid aenv.snap2.data = some u2) :
    (publish_article t c aenv).2 =
      [Action.navigated writeUrl, Action.tookSnapshot 1,
       Action.filledUid (String.mk u0) t, Action.tookSnapshot 2,
       Action.filledUid (String.mk u2) c] ++ (clickPublishScript aenv.page3).2 := by
  cases hcp : aenv.checkPage with
  | none => simp [publish_article, hm, hc, hcp]
  | some p => simp [publish_article, hm, hc, hcp]

/-- C6 witness. -/
theorem C6_snapshot_freshness_witness :
    (finditer articleEnvOk.snap1.data = [(0, ['1', '_', '2'])] ∧
     articleContentUid articleEnvOk.snap2.data = some ['2', '_', '3']) ∧
    (publish_article "T" "C" articleEnvOk).2 =
      [Action.navigated writeUrl, Action.tookSnapshot 1,
       Action.filledUid (String.mk ['1', '_', '2']) "T", Action.tookSnapshot 2,
       Action.filledUid (String.mk ['2', '_', '3']) "C"] ++
      (clickPublishScript articleEnvOk.page3).2 :=
  ⟨⟨by decide, by decide⟩,
   C6_snapshot_freshness "T" "C" articleEnvOk 0 ['1', '_', '2'] []
     (by decide) ['2', '_', '3'] (by decide)⟩

/-- C7: when the engine raises during `publish_idea` or `publish_article`
(on inputs that pass validation, so the engine is actually invoked), the
boundary returns `{success: false, error: "Publishing error: <description>"}`
instead of propagating the exception. -/
theorem C7_exception_wrapping (eng : String → String → EngineOutcome)
    (tI cI tA cA e1 e2 : String)
    (h1 : cI ≠ "") (h2 : eng tI cI = EngineOutcome.exn e1)
    (h3 : tA ≠ "") (h4 : cA ≠ "") (h5 : eng tA cA = EngineOutcome.exn e2) :
    server_publish_idea eng tI cI =
      ({ success := false, error := some (errPublishPrefix ++ e1) }, true) ∧
    server_publish_article eng tA cA =
      ({ success := false, error := some (errPublishPrefix ++ e2) }, true) := by
  constructor
  · simp [server_publish_idea, h1, h2]
  · simp [server_publish_article, h3, h4, h5]

/-- C7 witness. -/
theorem C7_exception_wrapping_witness :
    ("c" ≠ "" ∧ engBoom "t" "c" = EngineOutcome.exn "boom" ∧
     "T" ≠ "" ∧ "C" ≠ "" ∧ engBoom "T" "C" = EngineOutcome.exn "boom") ∧
    (server_publish_idea engBoom "t" "c" =
      ({ success := false, error := some (errPublishPrefix ++ "boom") }, true) ∧
    server_publish_article engBoom "T" "C" =
      ({ success := false, error := some (errPublishPrefix ++ "boom") }, true)) :=
  ⟨⟨by decide, rfl, by decide, by decide, rfl⟩,
   C7_exception_wrapping engBoom "t" "c" "T" "C" "boom" "boom"
     (by decide) rfl (by decide) (by decide) rfl⟩

/-- C8: in the idea flow, a located but disabled publish-trigger button
results in no click on it, and with a marker-less verify page the result
does not report CONFIRMED_SUCCESS: success is false and the message is
"Publishing status unknown". -/
theorem C8_disabled_button_skip (t c : String) (ienv : IdeaEnv) (b : Button) (p : Page)
    (hf : findButton labelPublish ienv.page3.buttons = some b)
    (hd : b.disabled = true)
    (hcp : ienv.checkPage = some p)
    (hnm : strContains p.bodyText successMarker = false) :
    Action.clickedButton labelPublish ∉ (publish_idea t c ienv).2 ∧
    (publish_idea t c ienv).1.success = false ∧
    (publish_idea t c ienv).1.message = some msgUnknown := by
  have hclick : (clickPublishScript ienv.page3).2 = [] := by
    simp [clickPublishScript, hf, hd]
  refine ⟨?_, ?_, ?_⟩
  · simp only [publish_idea, hclick, hcp]
    intro hmem
    rcases List.mem_append.mp hmem with hmem | hmem
    · rcases List.mem_append.mp hmem with hmem | hmem
      · rcases List.mem_append.mp hmem with hmem | hmem
        · rcases List.mem_append.mp hmem with hmem | hmem
          · simp at hmem
          · exact ideaForm_no_publish_click _ hmem
        · exact fillTitle_no_click _ _ hmem
      · exact fillContent_no_click _ _ hmem
    · simp at hmem
  · simp [publish_idea, hcp, ideaCheck, hnm]
  · simp [publish_idea, hcp, ideaCheck, hnm]

/-- C8 witness. -/
theorem C8_disabled_button_skip_witness :
    (findButton labelPublish ideaEnvDisabled.page3.buttons = some btnPublishDisabled ∧
     btnPublishDisabled.disabled = true ∧
     ideaEnvDisabled.checkPage = some pageNoMarker ∧
     strContains pageNoMarker.bodyText successMarker = false) ∧
    (Action.clickedButton labelPublish ∉ (publish_idea "t" "c" ideaEnvDisabled).2 ∧
     (publish_idea "t" "c" ideaEnvDisabled).1.success = false ∧
     (publish_idea "t" "c" ideaEnvDisabled).1.message = some msgUnknown) :=
  ⟨⟨by decide, rfl, rfl, by decide⟩,
   C8_disabled_button_skip "t" "c" ideaEnvDisabled btnPublishDisabled pageNoMarker
     (by decide) rfl rfl (by decide)⟩

/-- C10: the positional fallback for the article content field requires at
least two multiline-textbox matches; with exactly one match and no content
description attribute, the flow returns `{success: false, message:
"Failed to locate content input field"}` without attempting any content
fill. -/
theorem C10_single_textbox_fallback (t c : String) (aenv : ArticleEnv)
    (s0 : Nat) (u0 : List Char) (r0 : List (Nat × List Char))
    (hm1 : finditer aenv.snap1.data = (s0, u0) :: r0)
    (s1 : Nat) (u1 : List Char)
    (hm2 : finditer aenv.snap2.data = [(s1, u1)])
    (hd : containsSub (elementTextOf aenv.snap2.data s1) descMarker.data = false) :
    (publish_article t c aenv).1 =
      { success := false, message := some msgContentLocateFailed } ∧
    (publish_article t c aenv).2 = [Action.navigated writeUrl, Action.tookSnapshot 1,
      Action.filledUid (String.mk u0) t, Action.tookSnapshot 2] := by
  have hnone : articleContentUid aenv.snap2.data = none := by
    simp [articleContentUid, hm2, findContentUid, hd]
  exact ⟨by simp [publish_article, hm1, hnone], by simp [publish_article, hm1, hnone]⟩

/-- C10 witness. -/
theorem C10_single_textbox_fallback_witness :
    (finditer articleEnvOneBox.snap1.data = [(0, ['1', '_', '2'])] ∧
     finditer articleEnvOneBox.snap2.data = [(0, ['1', '_', '2'])] ∧
     containsSub (elementTextOf articleEnvOneBox.snap2.data 0) descMarker.data = false) ∧
    ((publish_article "t" "c" articleEnvOneBox).1 =
      { success := false, message := some msgContentLocateFailed } ∧
    (publish_article "t" "c" articleEnvOneBox).2 =
      [Action.navigated writeUrl, Action.tookSnapshot 1,
       Action.filledUid (String.mk ['1', '_', '2']) "t", Action.tookSnapshot 2]) :=
  ⟨⟨by decide, by decide, by decide⟩,
   C10_single_textbox_fallback "t" "c" articleEnvOneBox 0 ['1', '_', '2'] [] (by decide)
     0 ['1', '_', '2'] (by decide) (by decide)⟩

end ZhihuMcp
